import Mathlib

/-
Formal model of the recipe-app-api backend (a Django / Django REST Framework
application): user accounts, tags, ingredients and recipes behind an
authenticated, ownership-scoped CRUD API.

The embedding translates the repository's Python sources:
  app/core/models.py        (UserManager.create_user, validateEmail)
  app/recipe/views.py       (querysets, ownership scoping, serializer choice)
and, where the repository snapshot does not contain the deciding code
(the Tag/Ingredient/Recipe model classes, the recipe serializers, the
image-upload action and recipe_image_file_path), definitions are modelled
from the specification, as marked in their doc comments.

The relational store is a State record of entity lists; every operation is a
pure function from State to a result paired with the successor State, so that
"no partial write on failure" is an assertion about the returned State.
-/

namespace RecipeApp

/-- Error taxonomy of the API (spec section 7). `validationError` covers both
DRF serializer validation failures (HTTP 400) and the ValueError raised by
UserManager.create_user in app/core/models.py. -/
inductive ApiError where
  | validationError
  | notFound
  | unauthorized
deriving DecidableEq

/-- User row, from the custom user model in app/core/models.py (lines 42-50).
Password hashing is an injected external capability (spec section 9); it is
abstracted by `hash_password` below, which no claim inspects. -/
structure User where
  id : Nat
  email : String
  name : String := ""
  password_hash : String := ""
  is_active : Bool := true
  is_staff : Bool := false
  is_superuser : Bool := false
deriving DecidableEq

/-- Tag row. Modelled from the spec: the Tag model class is absent from the
snapshot (app/core/models.py stops after User); shape per spec section 3:
name (free text) and owner reference. -/
structure Tag where
  id : Nat
  user : Nat
  name : String
deriving DecidableEq

/-- Ingredient row. Modelled from the spec: same shape as Tag
(spec section 3). -/
structure Ingredient where
  id : Nat
  user : Nat
  name : String
deriving DecidableEq

/-- Recipe row. Modelled from the spec: the Recipe model class is absent from
the snapshot; fields per spec section 3: title, time estimate in minutes,
decimal price, optional image reference, owner, and the two many-to-many
association id sets. -/
structure Recipe where
  id : Nat
  user : Nat
  title : String
  time_minutes : Nat
  price : ℚ
  image : Option String := none
  tags : List Nat := []
  ingredients : List Nat := []
deriving DecidableEq

/-- The relational datastore: one list per table plus a surrogate-key
counter for rows created by the model layer. -/
structure State where
  users : List User := []
  tags : List Tag := []
  ingredients : List Ingredient := []
  recipes : List Recipe := []
  nextId : Nat := 1
deriving DecidableEq

/-- The empty datastore. -/
def emptyState : State := {}

/-- Database well-formedness: primary keys are unique within each table. -/
def WF (s : State) : Prop :=
  (s.tags.map Tag.id).Nodup ∧
  (s.ingredients.map Ingredient.id).Nodup ∧
  (s.recipes.map Recipe.id).Nodup

instance (s : State) : Decidable (WF s) := by
  unfold WF; infer_instance

/- ------------------------------------------------------------------ -/
/- String helpers shared by email normalization and filename handling  -/
/- ------------------------------------------------------------------ -/

/-- Characters strictly after the last occurrence of `c`; the whole list when
`c` does not occur (the semantics of Python's `rsplit(c, 1)[-1]` and of
`split(c)[-1]`). -/
def charsAfterLast (c : Char) (cs : List Char) : List Char :=
  (cs.reverse.takeWhile (fun d => d != c)).reverse

/-- Characters strictly before the last occurrence of `c`; empty when `c`
does not occur. -/
def charsBeforeLast (c : Char) (cs : List Char) : List Char :=
  ((cs.reverse.dropWhile (fun d => d != c)).drop 1).reverse

/-- Leading and trailing whitespace removed, the semantics of Python's
`str.strip()` used by Django's normalize_email. -/
def stripChars (cs : List Char) : List Char :=
  (((cs.dropWhile Char.isWhitespace).reverse.dropWhile Char.isWhitespace).reverse)

/-- Character-wise lower-casing, the semantics of `str.lower()` on the ASCII
range. -/
def lowerChars (cs : List Char) : List Char :=
  cs.map Char.toLower

/-- Lexicographic comparison by character code, the ordering the ORM's
order_by applies to text columns. -/
def strLtChars : List Char → List Char → Bool
  | [], [] => false
  | [], _ :: _ => true
  | _ :: _, [] => false
  | a :: as, b :: bs =>
    if a.toNat < b.toNat then true
    else if b.toNat < a.toNat then false
    else strLtChars as bs

/-- Lexicographic order on strings. -/
def strLt (a b : String) : Bool :=
  strLtChars a.data b.data

/-- Split at every occurrence of `c`; always returns at least one (possibly
empty) chunk, like Python's `str.split(c)`. -/
def splitOnChar (c : Char) : List Char → List (List Char)
  | [] => [[]]
  | d :: t =>
    match splitOnChar c t with
    | [] => [[]]
    | h :: rt => if d == c then [] :: h :: rt else (d :: h) :: rt

/- ------------------------------------------------------------------ -/
/- Identity store (app/core/models.py)                                 -/
/- ------------------------------------------------------------------ -/

/-- Permitted character of an unquoted local-part atom. Modelled from the
library: Django's EmailValidator user_regex, restricted to the ASCII atom
alphabet (quoted-string local parts are not modelled; no claim needs them). -/
def isAtomChar (c : Char) : Bool :=
  c.isAlphanum ||
    ['-', '!', '#', '$', '%', '&', '*', '+', '/', '=', '?', '^', '_', '~'].contains c

/-- Local part of an email: one or more non-empty dot-separated atoms. -/
def userPartOk (cs : List Char) : Bool :=
  !cs.isEmpty && (splitOnChar '.' cs).all (fun a => !a.isEmpty && a.all isAtomChar)

/-- One DNS label: non-empty, alphanumeric or hyphen, neither starting nor
ending with a hyphen. -/
def labelOk (cs : List Char) : Bool :=
  !cs.isEmpty && cs.all (fun c => c.isAlphanum || c == '-') &&
    cs.head? != some '-' && cs.getLast? != some '-'

/-- Domain part: either the allow-listed "localhost" or at least two valid
labels with a final label of length at least 2. Modelled from the library:
Django's EmailValidator domain_regex and domain_allowlist (IP-literal
domains are not modelled; no claim needs them). -/
def domainPartOk (cs : List Char) : Bool :=
  cs == "localhost".data ||
    (let labels := splitOnChar '.' cs
     decide (2 ≤ labels.length) && labels.all labelOk &&
       (match labels.getLast? with
        | none => false
        | some l => decide (2 ≤ l.length)))

/-- Boolean email validity, translating validateEmail in app/core/models.py
(lines 9-16), which returns True exactly when Django's validate_email
accepts: the value contains an `@`, the part before the last `@` is a valid
local part and the part after it a valid domain. -/
def validateEmail (email : String) : Bool :=
  let cs := email.data
  if !cs.contains '@' then false
  else userPartOk (charsBeforeLast '@' cs) && domainPartOk (charsAfterLast '@' cs)

/-- Email normalization, the semantics of BaseUserManager.normalize_email
called in app/core/models.py line 26: strip surrounding whitespace, split at
the last `@`, and lower-case only the domain part; a value without `@` is
returned stripped but otherwise unchanged. -/
def normalize_email (email : String) : String :=
  let e := stripChars email.data
  if e.contains '@' then
    String.mk (charsBeforeLast '@' e) ++ "@" ++ String.mk (lowerChars (charsAfterLast '@' e))
  else String.mk e

/-- Stand-in for the injected password hasher (spec section 9). No claim
inspects stored credentials, so the identity suffices as the abstract
injection. -/
def hash_password (password : String) : String := password

/-- UserManager.create_user, app/core/models.py lines 21-30: reject an empty
or invalid email before any write, otherwise persist a row with the
normalized email and hashed password. -/
def create_user (s : State) (email : String) (password : String) :
    Except ApiError User × State :=
  if email = "" ∨ validateEmail email = false then
    (Except.error ApiError.validationError, s)
  else
    let u : User :=
      { id := s.nextId, email := normalize_email email,
        password_hash := hash_password password }
    (Except.ok u, { s with users := s.users ++ [u], nextId := s.nextId + 1 })

/- ------------------------------------------------------------------ -/
/- Ownership-scoped querysets (app/recipe/views.py)                    -/
/- ------------------------------------------------------------------ -/

/-- Insertion step of the ordering applied by order_by. -/
def insertBefore {α : Type} (bf : α → α → Bool) (a : α) : List α → List α
  | [] => [a]
  | b :: t => if bf a b then a :: b :: t else b :: insertBefore bf a t

/-- Insertion sort parametrized by a strict "comes before" test, modelling
the ORM's order_by. -/
def sortListBy {α : Type} (bf : α → α → Bool) : List α → List α
  | [] => []
  | a :: t => insertBefore bf a (sortListBy bf t)

/-- BaseRecipeAttrViewSet.get_queryset for tags, app/recipe/views.py lines
17-19: the caller's rows only, ordered by name descending. -/
def tag_queryset (s : State) (uid : Nat) : List Tag :=
  sortListBy (fun a b => strLt b.name a.name) (s.tags.filter (fun t => t.user == uid))

/-- BaseRecipeAttrViewSet.get_queryset for ingredients, app/recipe/views.py
lines 17-19. -/
def ingredient_queryset (s : State) (uid : Nat) : List Ingredient :=
  sortListBy (fun a b => strLt b.name a.name) (s.ingredients.filter (fun i => i.user == uid))

/-- RecipeViewSet.get_queryset, app/recipe/views.py lines 48-50: the caller's
recipes ordered by title descending. -/
def recipe_queryset (s : State) (uid : Nat) : List Recipe :=
  sortListBy (fun a b => strLt b.title a.title) (s.recipes.filter (fun r => r.user == uid))

/-- The recipe list endpoint. The view builds its response from get_queryset
alone: RecipeViewSet in app/recipe/views.py never reads
request.query_params, so the tags and ingredients query parameters of the
request are ignored. -/
def list_recipes (s : State) (uid : Nat)
    (_tagsParam _ingredientsParam : Option String) : List Recipe :=
  recipe_queryset s uid

/-- DRF get_object for a tag: primary-key lookup inside the scoped queryset
(ordering is irrelevant to a pk lookup). -/
def get_object_tag (s : State) (uid tid : Nat) : Option Tag :=
  (tag_queryset s uid).find? (fun t => t.id == tid)

/-- DRF get_object for an ingredient. -/
def get_object_ingredient (s : State) (uid iid : Nat) : Option Ingredient :=
  (ingredient_queryset s uid).find? (fun i => i.id == iid)

/-- DRF get_object for a recipe. -/
def get_object_recipe (s : State) (uid rid : Nat) : Option Recipe :=
  (recipe_queryset s uid).find? (fun r => r.id == rid)

/-- RetrieveModelMixin.retrieve for a recipe: 404 when the pk is absent from
the caller's scoped queryset. -/
def retrieve_recipe (s : State) (uid rid : Nat) : Except ApiError Recipe :=
  match get_object_recipe s uid rid with
  | none => Except.error ApiError.notFound
  | some r => Except.ok r

/-- DestroyModelMixin.destroy for a tag; deleting a tag also removes it from
every recipe association set (many-to-many cascade, spec section 9), never
the recipes themselves. -/
def destroy_tag (s : State) (uid tid : Nat) : Except ApiError Unit × State :=
  match get_object_tag s uid tid with
  | none => (Except.error ApiError.notFound, s)
  | some _ =>
    (Except.ok (),
     { s with tags := s.tags.filter (fun t => !(t.id == tid)),
              recipes := s.recipes.map
                (fun r => { r with tags := r.tags.filter (fun i => !(i == tid)) }) })

/-- DestroyModelMixin.destroy for an ingredient, with the same cascade. -/
def destroy_ingredient (s : State) (uid iid : Nat) : Except ApiError Unit × State :=
  match get_object_ingredient s uid iid with
  | none => (Except.error ApiError.notFound, s)
  | some _ =>
    (Except.ok (),
     { s with ingredients := s.ingredients.filter (fun i => !(i.id == iid)),
              recipes := s.recipes.map
                (fun r => { r with ingredients := r.ingredients.filter (fun i => !(i == iid)) }) })

/-- DestroyModelMixin.destroy for a recipe. -/
def destroy_recipe (s : State) (uid rid : Nat) : Except ApiError Unit × State :=
  match get_object_recipe s uid rid with
  | none => (Except.error ApiError.notFound, s)
  | some _ => (Except.ok (), { s with recipes := s.recipes.filter (fun r => !(r.id == rid)) })

/-- Tag creation. Modelled from the spec: the TagSerializer is absent from
the snapshot of app/recipe/serializers.py; per spec section 4.2 an empty
name fails with ValidationError before any write, otherwise the row is
inserted with the caller stamped as owner (perform_create,
app/recipe/views.py lines 21-23). -/
def create_tag (s : State) (uid : Nat) (name : String) : Except ApiError Tag × State :=
  if name = "" then (Except.error ApiError.validationError, s)
  else
    let t : Tag := { id := s.nextId, user := uid, name := name }
    (Except.ok t, { s with tags := s.tags ++ [t], nextId := s.nextId + 1 })

/-- Ingredient creation. Modelled from the spec: same contract as tag
creation (spec section 4.2). -/
def create_ingredient (s : State) (uid : Nat) (name : String) :
    Except ApiError Ingredient × State :=
  if name = "" then (Except.error ApiError.validationError, s)
  else
    let i : Ingredient := { id := s.nextId, user := uid, name := name }
    (Except.ok i, { s with ingredients := s.ingredients ++ [i], nextId := s.nextId + 1 })

/- ------------------------------------------------------------------ -/
/- Recipe update and image upload                                      -/
/- ------------------------------------------------------------------ -/

/-- Fields supplied in an update request; `none` means the field is absent
from the payload. -/
structure RecipePayload where
  title : Option String := none
  time_minutes : Option Nat := none
  price : Option ℚ := none
  tags : Option (List Nat) := none
  ingredients : Option (List Nat) := none

/-- Every listed tag id resolves to an existing tag row (any owner: the
snapshot does not scope association ids to the caller, spec section 9). -/
def tag_ids_exist (s : State) (ids : List Nat) : Bool :=
  ids.all (fun i => s.tags.any (fun t => t.id == i))

/-- Every listed ingredient id resolves to an existing ingredient row. -/
def ingredient_ids_exist (s : State) (ids : List Nat) : Bool :=
  ids.all (fun i => s.ingredients.any (fun x => x.id == i))

/-- Recipe update. Modelled from the spec: the RecipeSerializer is absent
from the snapshot, so spec section 4.3 is followed: NotFound when the pk is
outside the caller's scoped queryset; on a full update (patch = false) every
scalar field must be supplied; unresolvable association ids fail validation;
a supplied association list replaces the whole set, and on a full update an
omitted association list resets the set to empty, while a patch keeps it. -/
def update_recipe (s : State) (uid rid : Nat) (p : RecipePayload) (patch : Bool) :
    Except ApiError Recipe × State :=
  match get_object_recipe s uid rid with
  | none => (Except.error ApiError.notFound, s)
  | some r =>
    if !patch && (p.title.isNone || p.time_minutes.isNone || p.price.isNone) then
      (Except.error ApiError.validationError, s)
    else if !(tag_ids_exist s (p.tags.getD []) &&
              ingredient_ids_exist s (p.ingredients.getD [])) then
      (Except.error ApiError.validationError, s)
    else
      let r' : Recipe :=
        { r with
          title := p.title.getD r.title,
          time_minutes := p.time_minutes.getD r.time_minutes,
          price := p.price.getD r.price,
          tags := p.tags.getD (if patch then r.tags else []),
          ingredients := p.ingredients.getD (if patch then r.ingredients else []) }
      (Except.ok r', { s with recipes := s.recipes.map (fun x => if x.id == rid then r' else x) })

/-- An upload payload: the original filename plus whether the bytes decode as
an image (the bytes themselves are opaque to this model). -/
structure ImageUpload where
  filename : String
  isDecodableImage : Bool

/-- Storage path for a recipe image. Modelled from the spec:
recipe_image_file_path is absent from the snapshot of app/core/models.py;
per spec section 4.3 the fresh random UUID (passed explicitly here) is
joined with the original filename's extension, the substring after the last
dot, as uploads/recipe/(uuid).(extension). -/
def recipe_image_file_path (uuid : String) (filename : String) : String :=
  ("uploads/recipe/" ++ uuid) ++ ("." ++ String.mk (charsAfterLast '.' filename.data))

/-- Image upload. Modelled from the spec: the upload action is absent from
the snapshot of app/recipe/views.py; per spec section 4.3 it is NotFound
outside the caller's scope, ValidationError without touching the store when
the payload does not decode as an image, and otherwise stores the new path
on the recipe. -/
def upload_image (s : State) (uid rid : Nat) (up : ImageUpload) (uuid : String) :
    Except ApiError Recipe × State :=
  match get_object_recipe s uid rid with
  | none => (Except.error ApiError.notFound, s)
  | some r =>
    if up.isDecodableImage = false then (Except.error ApiError.validationError, s)
    else
      let r' : Recipe := { r with image := some (recipe_image_file_path uuid up.filename) }
      (Except.ok r', { s with recipes := s.recipes.map (fun x => if x.id == rid then r' else x) })

/- ------------------------------------------------------------------ -/
/- Serializer selection (app/recipe/views.py lines 52-57)              -/
/- ------------------------------------------------------------------ -/

/-- The two recipe projections: the summary RecipeSerializer and the nested
RecipeDetailSerializer. -/
inductive SerializerKind where
  | summary
  | detail
deriving DecidableEq

/-- RecipeViewSet.get_serializer_class, app/recipe/views.py lines 52-57: the
detail projection exactly for the retrieve action, the summary serializer
for every other action. -/
def get_serializer_class (action : String) : SerializerKind :=
  if action = "retrieve" then SerializerKind.detail else SerializerKind.summary

/- ------------------------------------------------------------------ -/
/- Concrete stores used to instantiate the theorems                    -/
/- ------------------------------------------------------------------ -/

/-- A tag owned by user 1. -/
def tagA : Tag := { id := 1, user := 1, name := "Vegan" }

/-- An ingredient owned by user 1. -/
def ingA : Ingredient := { id := 2, user := 1, name := "Salt" }

/-- A recipe owned by user 1. -/
def recA : Recipe :=
  { id := 3, user := 1, title := "Nasi goreng", time_minutes := 10, price := 5 }

/-- A store holding one tag, one ingredient and one recipe, all owned by
user 1. -/
def csA : State := { tags := [tagA], ingredients := [ingA], recipes := [recA], nextId := 4 }

/-- Tags and ingredients for the update scenarios. -/
def tagB : Tag := { id := 11, user := 1, name := "Hot" }

/-- A second tag of user 1. -/
def tagC : Tag := { id := 12, user := 1, name := "Spicy" }

/-- An ingredient initially attached to the sample recipe. -/
def ingB : Ingredient := { id := 13, user := 1, name := "Salt" }

/-- A second ingredient of user 1. -/
def ingC : Ingredient := { id := 14, user := 1, name := "Pepper" }

/-- A recipe of user 1 holding tag 11 and ingredient 13. -/
def recB : Recipe :=
  { id := 15, user := 1, title := "Sample recipe", time_minutes := 10, price := 5,
    tags := [11], ingredients := [13] }

/-- The store for the update scenarios. -/
def csB : State :=
  { tags := [tagB, tagC], ingredients := [ingB, ingC], recipes := [recB], nextId := 16 }

/-- Recipe of user 1 carrying both tags of the filter scenario. -/
def rVeggie : Recipe :=
  { id := 1, user := 1, title := "Veggie curry", time_minutes := 10, price := 5,
    tags := [1, 2] }

/-- Recipe of user 1 carrying the first tag only. -/
def rSoja : Recipe :=
  { id := 2, user := 1, title := "Soja burger", time_minutes := 10, price := 5,
    tags := [1] }

/-- Recipe of user 1 carrying neither tag of the filter request. -/
def rPork : Recipe :=
  { id := 3, user := 1, title := "Pulled pork sandwich", time_minutes := 10, price := 5 }

/-- The store of the recipe-filter scenario from
test_filter_recipes_by_tag. -/
def cs4 : State :=
  { tags := [tagA, { id := 2, user := 1, name := "Curry" }],
    recipes := [rVeggie, rSoja, rPork], nextId := 4 }

/- ------------------------------------------------------------------ -/
/- Helper lemmas                                                       -/
/- ------------------------------------------------------------------ -/

theorem mem_insertBefore {α : Type} (bf : α → α → Bool) (a x : α) (l : List α) :
    x ∈ insertBefore bf a l ↔ x = a ∨ x ∈ l := by
  induction l with
  | nil => simp [insertBefore]
  | cons b t ih =>
    by_cases h : bf a b = true
    · simp only [insertBefore, if_pos h, List.mem_cons]
    · simp only [insertBefore, if_neg h, List.mem_cons, ih]
      tauto

theorem mem_sortListBy {α : Type} (bf : α → α → Bool) (x : α) (l : List α) :
    x ∈ sortListBy bf l ↔ x ∈ l := by
  induction l with
  | nil => simp [sortListBy]
  | cons a t ih => simp [sortListBy, mem_insertBefore, ih]

theorem find?_eq_some_of_unique {α : Type} (p : α → Bool) (l : List α) (x : α)
    (hx : x ∈ l) (hpx : p x = true) (huniq : ∀ a ∈ l, p a = true → a = x) :
    l.find? p = some x := by
  induction l with
  | nil => cases hx
  | cons b t ih =>
    by_cases hb : p b = true
    · rw [List.find?_cons_of_pos _ hb, huniq b (List.mem_cons_self b t) hb]
    · have hxt : x ∈ t := by
        rcases List.mem_cons.mp hx with h | h
        · subst h; exact absurd hpx hb
        · exact h
      rw [List.find?_cons_of_neg _ hb]
      exact ih hxt (fun a ha hpa => huniq a (List.mem_cons_of_mem _ ha) hpa)

theorem get_object_recipe_owned (s : State) (u : Nat) (r : Recipe)
    (hnd : (s.recipes.map Recipe.id).Nodup) (hr : r ∈ s.recipes) (hu : r.user = u) :
    get_object_recipe s u r.id = some r := by
  unfold get_object_recipe recipe_queryset
  apply find?_eq_some_of_unique
  · rw [mem_sortListBy]
    exact List.mem_filter.mpr ⟨hr, by simp [hu]⟩
  · simp
  · intro a ha hpa
    rw [mem_sortListBy] at ha
    have ha' := (List.mem_filter.mp ha).1
    have haid : a.id = r.id := by simpa using hpa
    exact List.inj_on_of_nodup_map hnd ha' hr haid

theorem get_object_recipe_other (s : State) (u1 u2 : Nat) (r : Recipe)
    (hne : u1 ≠ u2) (hnd : (s.recipes.map Recipe.id).Nodup)
    (hr : r ∈ s.recipes) (hu : r.user = u1) :
    get_object_recipe s u2 r.id = none := by
  unfold get_object_recipe recipe_queryset
  rw [List.find?_eq_none]
  intro a ha hpa
  rw [mem_sortListBy] at ha
  obtain ⟨ha1, ha2⟩ := List.mem_filter.mp ha
  have haid : a.id = r.id := by simpa using hpa
  have hae : a = r := List.inj_on_of_nodup_map hnd ha1 hr haid
  subst hae
  have hu2 : a.user = u2 := by simpa using ha2
  exact hne (hu ▸ hu2)

theorem get_object_tag_other (s : State) (u1 u2 : Nat) (t : Tag)
    (hne : u1 ≠ u2) (hnd : (s.tags.map Tag.id).Nodup)
    (ht : t ∈ s.tags) (hu : t.user = u1) :
    get_object_tag s u2 t.id = none := by
  unfold get_object_tag tag_queryset
  rw [List.find?_eq_none]
  intro a ha hpa
  rw [mem_sortListBy] at ha
  obtain ⟨ha1, ha2⟩ := List.mem_filter.mp ha
  have haid : a.id = t.id := by simpa using hpa
  have hae : a = t := List.inj_on_of_nodup_map hnd ha1 ht haid
  subst hae
  have hu2 : a.user = u2 := by simpa using ha2
  exact hne (hu ▸ hu2)

theorem get_object_ingredient_other (s : State) (u1 u2 : Nat) (i : Ingredient)
    (hne : u1 ≠ u2) (hnd : (s.ingredients.map Ingredient.id).Nodup)
    (hi : i ∈ s.ingredients) (hu : i.user = u1) :
    get_object_ingredient s u2 i.id = none := by
  unfold get_object_ingredient ingredient_queryset
  rw [List.find?_eq_none]
  intro a ha hpa
  rw [mem_sortListBy] at ha
  obtain ⟨ha1, ha2⟩ := List.mem_filter.mp ha
  have haid : a.id = i.id := by simpa using hpa
  have hae : a = i := List.inj_on_of_nodup_map hnd ha1 hi haid
  subst hae
  have hu2 : a.user = u2 := by simpa using ha2
  exact hne (hu ▸ hu2)

/- ------------------------------------------------------------------ -/
/- Claim theorems                                                      -/
/- ------------------------------------------------------------------ -/

/-- C1: ownership scoping is universal: for distinct users u1 and u2, a tag,
ingredient or recipe owned by u1 is never returned by a list or get issued
as u2, and an update or delete issued as u2 on its id fails with NotFound
leaving the store unchanged. -/
theorem c1_ownership_scoping (s : State) (u1 u2 : Nat)
    (hWF : WF s) (hne : u1 ≠ u2) :
    (∀ t ∈ s.tags, t.user = u1 →
      t ∉ tag_queryset s u2 ∧
      destroy_tag s u2 t.id = (Except.error ApiError.notFound, s)) ∧
    (∀ i ∈ s.ingredients, i.user = u1 →
      i ∉ ingredient_queryset s u2 ∧
      destroy_ingredient s u2 i.id = (Except.error ApiError.notFound, s)) ∧
    (∀ r ∈ s.recipes, r.user = u1 →
      r ∉ recipe_queryset s u2 ∧
      retrieve_recipe s u2 r.id = Except.error ApiError.notFound ∧
      (∀ (p : RecipePayload) (patch : Bool),
        update_recipe s u2 r.id p patch = (Except.error ApiError.notFound, s)) ∧
      destroy_recipe s u2 r.id = (Except.error ApiError.notFound, s)) := by
  refine ⟨?_, ?_, ?_⟩
  · intro t ht hu
    have h0 := get_object_tag_other s u1 u2 t hne hWF.1 ht hu
    constructor
    · intro hmem
      unfold tag_queryset at hmem
      rw [mem_sortListBy] at hmem
      have h2 : t.user = u2 := by simpa using (List.mem_filter.mp hmem).2
      exact hne (hu ▸ h2)
    · simp [destroy_tag, h0]
  · intro i hi hu
    have h0 := get_object_ingredient_other s u1 u2 i hne hWF.2.1 hi hu
    constructor
    · intro hmem
      unfold ingredient_queryset at hmem
      rw [mem_sortListBy] at hmem
      have h2 : i.user = u2 := by simpa using (List.mem_filter.mp hmem).2
      exact hne (hu ▸ h2)
    · simp [destroy_ingredient, h0]
  · intro r hr hu
    have h0 := get_object_recipe_other s u1 u2 r hne hWF.2.2 hr hu
    refine ⟨?_, ?_, ?_, ?_⟩
    · intro hmem
      unfold recipe_queryset at hmem
      rw [mem_sortListBy] at hmem
      have h2 : r.user = u2 := by simpa using (List.mem_filter.mp hmem).2
      exact hne (hu ▸ h2)
    · simp [retrieve_recipe, h0]
    · intro p patch; simp [update_recipe, h0]
    · simp [destroy_recipe, h0]

/-- Witness for C1 on a concrete store: user 2 cannot see or delete user 1's
tag, nor retrieve user 1's recipe. -/
theorem c1_witness :
    tagA ∉ tag_queryset csA 2 ∧
    destroy_tag csA 2 1 = (Except.error ApiError.notFound, csA) ∧
    retrieve_recipe csA 2 3 = Except.error ApiError.notFound := by
  have h := c1_ownership_scoping csA 1 2 (by decide) (by decide)
  exact ⟨(h.1 tagA (by decide) (by decide)).1,
         (h.1 tagA (by decide) (by decide)).2,
         (h.2.2 recA (by decide) (by decide)).2.1⟩

/-- C2: a patch update of an owned recipe supplying tags and ingredients
replaces both association sets entirely, and every scalar field not supplied
(title, time, price) keeps its previous value. -/
theorem c2_patch_replaces_associations (s : State) (u : Nat) (r : Recipe)
    (t1 t2 i1 i2 : Nat) (hWF : WF s) (hr : r ∈ s.recipes) (hu : r.user = u)
    (_htag : r.tags = [t1]) (_hing : r.ingredients = [i1])
    (ht2 : tag_ids_exist s [t2] = true) (hi2 : ingredient_ids_exist s [i2] = true) :
    update_recipe s u r.id { tags := some [t2], ingredients := some [i2] } true =
      (Except.ok { r with tags := [t2], ingredients := [i2] },
       { s with recipes := s.recipes.map (fun x =>
          if x.id == r.id then { r with tags := [t2], ingredients := [i2] } else x) }) := by
  have h0 := get_object_recipe_owned s u r hWF.2.2 hr hu
  simp [update_recipe, h0, ht2, hi2]

/-- Witness for C2 on a concrete store: patching tags from set 11 to set 12
and ingredients from set 13 to set 14 replaces both sets and keeps the
price. -/
theorem c2_witness :
    update_recipe csB 1 recB.id { tags := some [12], ingredients := some [14] } true =
      (Except.ok { recB with tags := [12], ingredients := [14] },
       { csB with recipes := csB.recipes.map (fun x =>
          if x.id == recB.id then { recB with tags := [12], ingredients := [14] } else x) }) :=
  c2_patch_replaces_associations csB 1 recB 11 12 13 14 (by decide) (by decide)
    (by decide) (by decide) (by decide) (by decide) (by decide)

/-- C3: a full (non-patch) update of an owned recipe fails with
ValidationError (store unchanged) when any scalar field is missing, and when
all scalars are supplied but both association lists are omitted, both
association sets reset to empty. -/
theorem c3_full_update_requires_scalars (s : State) (u : Nat) (r : Recipe)
    (hWF : WF s) (hr : r ∈ s.recipes) (hu : r.user = u) :
    (∀ p : RecipePayload,
      (p.title = none ∨ p.time_minutes = none ∨ p.price = none) →
      update_recipe s u r.id p false = (Except.error ApiError.validationError, s)) ∧
    (∀ (tt : String) (tm : Nat) (pr : ℚ),
      update_recipe s u r.id
        { title := some tt, time_minutes := some tm, price := some pr } false =
        (Except.ok { r with title := tt, time_minutes := tm, price := pr,
                            tags := [], ingredients := [] },
         { s with recipes := s.recipes.map (fun x =>
            if x.id == r.id then
              { r with title := tt, time_minutes := tm, price := pr,
                       tags := [], ingredients := [] }
            else x) })) := by
  have h0 := get_object_recipe_owned s u r hWF.2.2 hr hu
  constructor
  · intro p hp
    rcases hp with h | h | h <;> simp [update_recipe, h0, h]
  · intro tt tm pr
    simp [update_recipe, h0, tag_ids_exist, ingredient_ids_exist]

/-- Witness for C3 on a concrete store: a full update without the price is
rejected, and a full update with all scalars but no association lists resets
tags and ingredients to empty. -/
theorem c3_witness :
    update_recipe csB 1 recB.id { tags := some [12] } false =
      (Except.error ApiError.validationError, csB) ∧
    update_recipe csB 1 recB.id
      { title := some "Chicken pizza", time_minutes := some 12, price := some 8 } false =
      (Except.ok { recB with title := "Chicken pizza", time_minutes := 12, price := 8,
                             tags := [], ingredients := [] },
       { csB with recipes := csB.recipes.map (fun x =>
          if x.id == recB.id then
            { recB with title := "Chicken pizza", time_minutes := 12, price := 8,
                        tags := [], ingredients := [] }
          else x) }) := by
  have h := c3_full_update_requires_scalars csB 1 recB (by decide) (by decide) (by decide)
  exact ⟨h.1 { tags := some [12] } (Or.inl rfl), h.2 "Chicken pizza" 12 8⟩

/-- C4, behavior of the code at the failing input: listing recipes as user 1
with the query parameter tags set to "1,2" returns all three of the user's
recipes, including the one carrying neither tag, because
RecipeViewSet.get_queryset ignores the request's query parameters. The
repository's own test test_filter_recipes_by_tag asserts that this recipe is
excluded. -/
theorem c4_filter_params_ignored :
    list_recipes cs4 1 (some "1,2") none = [rVeggie, rSoja, rPork] ∧
    rPork ∈ list_recipes cs4 1 (some "1,2") none ∧
    rPork.tags = [] := by decide

/-- C5, counterexample to the claim as stated: createUser with email
"ABC@Example.com" stores "ABC@example.com" — the local part keeps its case —
which differs from the claimed "abc@example.com". -/
theorem c5_counterexample :
    ((create_user emptyState "ABC@Example.com" "pw").1).map User.email =
      Except.ok "ABC@example.com" ∧
    ("ABC@example.com" : String) ≠ "abc@example.com" :=
  ⟨rfl, by decide⟩

/-- C5 as amended: createUser normalizes the stored email by lower-casing the
domain part only; with email "ABC@Example.com" the persisted user's stored
email equals "ABC@example.com". -/
theorem c5_amended_domain_lowercased (s : State) (pw : String) :
    ((create_user s "ABC@Example.com" pw).1).map User.email =
      Except.ok "ABC@example.com" := by
  have hv : validateEmail "ABC@Example.com" = true := by decide
  have hn : normalize_email "ABC@Example.com" = "ABC@example.com" := by decide
  simp [create_user, hv, hn, Except.map]

/-- C6: an empty or syntactically invalid email is rejected by create_user
with an error before any write: the returned store is the input store, so no
user row is persisted. -/
theorem c6_invalid_email_rejected (s : State) (email pw : String)
    (h : email = "" ∨ validateEmail email = false) :
    create_user s email pw = (Except.error ApiError.validationError, s) ∧
    (create_user s email pw).2.users = s.users := by
  have h1 : create_user s email pw = (Except.error ApiError.validationError, s) := by
    unfold create_user
    rw [if_pos h]
  exact ⟨h1, by rw [h1]⟩

/-- Witness for C6: the email "abc" (no at-sign) is invalid and the call
leaves the empty store unchanged. -/
theorem c6_witness :
    create_user emptyState "abc" "pw" = (Except.error ApiError.validationError, emptyState) ∧
    validateEmail "abc" = false :=
  ⟨(c6_invalid_email_rejected emptyState "abc" "pw" (Or.inr (by decide))).1, by decide⟩

/-- The extension after the last dot of `base ++ "." ++ ext` is `ext` when
`ext` itself contains no dot. -/
theorem takeWhile_append_sentinel {α : Type} (p : α → Bool) (xs ys : List α) (y : α)
    (hxs : ∀ x ∈ xs, p x = true) (hy : p y = false) :
    (xs ++ y :: ys).takeWhile p = xs := by
  induction xs with
  | nil => simp [List.takeWhile_cons, hy]
  | cons a t ih =>
    have ha : p a = true := hxs a (List.mem_cons_self a t)
    simp [List.takeWhile_cons, ha,
          ih (fun x hx => hxs x (List.mem_cons_of_mem _ hx))]

/-- Splitting off everything after the last occurrence of a sentinel that is
absent from the suffix returns exactly the suffix. -/
theorem charsAfterLast_append (c : Char) (l1 l2 : List Char)
    (h : ∀ x ∈ l2, (x != c) = true) :
    charsAfterLast c (l1 ++ c :: l2) = l2 := by
  unfold charsAfterLast
  rw [List.reverse_append]
  have hsh : (c :: l2).reverse ++ l1.reverse = l2.reverse ++ c :: l1.reverse := by
    simp
  rw [hsh,
      takeWhile_append_sentinel _ _ _ _ (fun x hx => h x (List.mem_reverse.mp hx))
        (by simp),
      List.reverse_reverse]

/-- C7: the image filename derives from the uuid and the original filename's
extension, the substring after the last dot: for a dot-free extension the
result is uploads/recipe/(uuid).(extension), and in particular
"some_image.jpg" maps to uploads/recipe/(uuid).jpg. -/
theorem c7_image_file_path (uuid base ext : String)
    (hext : ∀ x ∈ ext.data, x ≠ '.') :
    recipe_image_file_path uuid (base ++ "." ++ ext) =
      ("uploads/recipe/" ++ uuid) ++ ("." ++ ext) ∧
    recipe_image_file_path uuid "some_image.jpg" =
      ("uploads/recipe/" ++ uuid) ++ ".jpg" := by
  have key : ∀ b e : String, (∀ x ∈ e.data, x ≠ '.') →
      recipe_image_file_path uuid (b ++ "." ++ e) =
        ("uploads/recipe/" ++ uuid) ++ ("." ++ e) := by
    intro b e he
    unfold recipe_image_file_path
    have hdata : (b ++ "." ++ e).data = b.data ++ '.' :: e.data := by
      simp [String.data_append]
    rw [hdata, charsAfterLast_append _ _ _ (fun x hx => by simpa using he x hx)]
  constructor
  · exact key base ext hext
  · have h1 := key "some_image" "jpg" (by decide)
    have h2 : ("some_image" ++ "." ++ "jpg" : String) = "some_image.jpg" := by decide
    have h3 : ("." ++ "jpg" : String) = ".jpg" := by decide
    rw [h2] at h1
    rw [h1, h3]

/-- Witness for C7 at the uuid of the repository's own test: the stored path
is uploads/recipe/test-uuid.jpg. -/
theorem c7_witness :
    recipe_image_file_path "test-uuid" "some_image.jpg" = "uploads/recipe/test-uuid.jpg" := by
  have h := (c7_image_file_path "test-uuid" "some_image" "jpg" (by decide)).2
  rw [h]
  decide

/-- C8: creating a tag or an ingredient with an empty name fails with
ValidationError and leaves the store, in particular the row counts,
unchanged. -/
theorem c8_empty_name_rejected (s : State) (u : Nat) :
    create_tag s u "" = (Except.error ApiError.validationError, s) ∧
    create_ingredient s u "" = (Except.error ApiError.validationError, s) ∧
    (create_tag s u "").2.tags.length = s.tags.length ∧
    (create_ingredient s u "").2.ingredients.length = s.ingredients.length :=
  ⟨rfl, rfl, rfl, rfl⟩

/-- C9: uploading a payload that does not decode as an image to an owned
recipe fails with ValidationError and returns the store unchanged, so the
recipe's existing image reference is untouched. -/
theorem c9_bad_image_rejected (s : State) (u : Nat) (r : Recipe)
    (up : ImageUpload) (uuid : String)
    (hWF : WF s) (hr : r ∈ s.recipes) (hu : r.user = u)
    (hbad : up.isDecodableImage = false) :
    upload_image s u r.id up uuid = (Except.error ApiError.validationError, s) := by
  have h0 := get_object_recipe_owned s u r hWF.2.2 hr hu
  simp [upload_image, h0, hbad]

/-- Witness for C9 on a concrete store: a non-decodable payload is rejected
and the store survives unchanged. -/
theorem c9_witness :
    upload_image csA 1 recA.id { filename := "x.jpg", isDecodableImage := false } "u1" =
      (Except.error ApiError.validationError, csA) :=
  c9_bad_image_rejected csA 1 recA { filename := "x.jpg", isDecodableImage := false } "u1"
    (by decide) (by decide) (by decide) (by decide)

/-- C10: the nested detail projection is chosen exactly for the retrieve
action; every other action name selects the summary serializer. -/
theorem c10_detail_only_for_retrieve :
    get_serializer_class "retrieve" = SerializerKind.detail ∧
    (∀ action : String, action ≠ "retrieve" →
      get_serializer_class action = SerializerKind.summary) := by
  constructor
  · rfl
  · intro a ha
    unfold get_serializer_class
    rw [if_neg ha]

/-- Witness for C10: the list and partial_update actions use the summary
serializer. -/
theorem c10_witness :
    get_serializer_class "list" = SerializerKind.summary ∧
    get_serializer_class "partial_update" = SerializerKind.summary :=
  ⟨c10_detail_only_for_retrieve.2 "list" (by decide),
   c10_detail_only_for_retrieve.2 "partial_update" (by decide)⟩

end RecipeApp
